import Mathlib

/-!
Shallow embedding of the meteomatics `rust-connector-api` client, covering the
time-specification formatter (`valid_date_time.rs`), the parameter and option
formatters (`parameters.rs`, `optionals.rs`) and the query orchestration of
`api_client.rs`, together with theorems about their behaviour.

Collaborator code that is not among the available sources (`connector_error.rs`,
`locations.rs`, `format.rs`, `connector_response.rs`, the chrono time library
and the CSV tokenizer) is modelled from the specification; each such definition
says so in its doc comment.
-/

/-- Embedding of the external chrono `DateTime` values: `valid_date_time.rs`
only ever consults them through `to_rfc3339`, so a timestamp is represented by
the RFC-3339 text that call produces. -/
structure ChronoDateTime where
  rfc3339 : String
deriving DecidableEq, Repr

/-- The `VDTOffset` enum of `valid_date_time.rs`: a point in time tagged with
its timezone disposition (UTC, local, or fixed offset). -/
inductive VDTOffset where
  | Utc (dt : ChronoDateTime)
  | Local (dt : ChronoDateTime)
  | FixedOffset (dt : ChronoDateTime)
deriving DecidableEq, Repr

/-- The `Display` impl for `VDTOffset`: every variant renders via
`to_rfc3339`. -/
def VDTOffset.render : VDTOffset → String
  | .Utc dt => dt.rfc3339
  | .Local dt => dt.rfc3339
  | .FixedOffset dt => dt.rfc3339

/-- The `PeriodDate` enum of `valid_date_time.rs`. -/
inductive PeriodDate where
  | Years (n : Int)
  | Months (n : Int)
  | Days (n : Int)
deriving DecidableEq, Repr

/-- The `Display` impl for `PeriodDate`: `P<n><Y|M|D>`. -/
def PeriodDate.render : PeriodDate → String
  | .Years n => "P" ++ toString n ++ "Y"
  | .Months n => "P" ++ toString n ++ "M"
  | .Days n => "P" ++ toString n ++ "D"

/-- The `PeriodTime` enum of `valid_date_time.rs`. -/
inductive PeriodTime where
  | Hours (n : Int)
  | Minutes (n : Int)
  | Seconds (n : Int)
deriving DecidableEq, Repr

/-- The `Display` impl for `PeriodTime`: `PT<n><H|M|S>`. -/
def PeriodTime.render : PeriodTime → String
  | .Hours n => "PT" ++ toString n ++ "H"
  | .Minutes n => "PT" ++ toString n ++ "M"
  | .Seconds n => "PT" ++ toString n ++ "S"

/-- The `ValidDateTime` struct of `valid_date_time.rs`. -/
structure ValidDateTime where
  start_date_time : VDTOffset
  period_date : Option PeriodDate
  end_date_time : Option VDTOffset
  time_step : Option PeriodTime
  time_list : Option (List VDTOffset)
deriving DecidableEq, Repr

/-- Modelled from the spec: the error taxonomy of §7. `connector_error.rs` is
not among the available sources, so the variants are taken from their
construction sites in `valid_date_time.rs` and `api_client.rs`:
`LibraryError` realizes the spec's ConfigurationError and carries its message,
`HttpError` carries the status line text, the raw body and the numeric status,
`ApiError` wraps a transport failure, `GenericError` wraps a decode failure. -/
inductive ConnectorError where
  | LibraryError (msg : String)
  | HttpError (statusLine : String) (body : String) (status : Nat)
  | ApiError (source : String)
  | GenericError (msg : String)
deriving DecidableEq, Repr

/-- `ValidDateTime::format` of `valid_date_time.rs`, translated statement by
statement: build the optional period/step suffix (setting `both` when the
time-step separator was appended after a period token), then branch on
`end_date_time`. The mutable `suffix`/`both` locals become rebound lets; the
`sb` pair carries them through the `time_step` branch. -/
def ValidDateTime.format (self : ValidDateTime) : Except ConnectorError String :=
  let start := self.start_date_time.render
  let suffix : String := ""
  let both : Bool := false
  let suffix : String :=
    match self.period_date with
    | some pd => pd.render
    | none => suffix
  let sb : String × Bool :=
    match self.time_step with
    | some ts =>
      let sb := if suffix.isEmpty then (suffix, both) else (suffix ++ ":", true)
      (sb.1 ++ ts.render, sb.2)
    | none => (suffix, both)
  match self.end_date_time with
  | none => Except.ok (start ++ sb.1)
  | some e =>
    if sb.2 then
      Except.error (ConnectorError.LibraryError
        "Cannot use period date and time step simultaneously.")
    else
      let endText := e.render
      let endText := if sb.1.isEmpty then endText else endText ++ ":" ++ sb.1
      Except.ok (start ++ "--" ++ endText)

/-- The builder state generated by `#[derive(Builder)]` on `ValidDateTime`:
every field starts unset, the optional ones defaulting to `None`. -/
structure ValidDateTimeBuilder where
  start_date_time : Option VDTOffset := none
  period_date : Option PeriodDate := none
  end_date_time : Option VDTOffset := none
  time_step : Option PeriodTime := none
  time_list : Option (List VDTOffset) := none
deriving DecidableEq, Repr

/-- `ValidDateTimeBuilder::build` as generated by `derive_builder` without a
custom validate function: it fails only when the required `start_date_time`
was never set and performs no cross-field validation. -/
def ValidDateTimeBuilder.build (b : ValidDateTimeBuilder) : Except String ValidDateTime :=
  match b.start_date_time with
  | none => Except.error "`start_date_time` must be initialized"
  | some s => Except.ok ⟨s, b.period_date, b.end_date_time, b.time_step, b.time_list⟩

/-- The `P` struct of `parameters.rs`: a variable name with an optional unit
override. -/
structure P where
  k : String
  v : Option String
deriving DecidableEq, Repr

/-- The `Display` impl for `P`: bare name when no unit, `name:unit`
otherwise. -/
def P.render (p : P) : String :=
  match p.v with
  | none => p.k
  | some u => p.k ++ ":" ++ u

/-- The `Parameters` struct of `parameters.rs`: a plain vector of `P`. -/
structure Parameters where
  p_values : List P
deriving DecidableEq, Repr

/-- The `Display` impl for `Parameters`: render each element and join with
commas. -/
def Parameters.render (ps : Parameters) : String :=
  String.intercalate "," (ps.p_values.map P.render)

/-- The `Opt` struct of `optionals.rs`: one key/value query flag. -/
structure Opt where
  k : String
  v : String
deriving DecidableEq, Repr

/-- The `Display` impl for `Opt`: `k=v`. -/
def Opt.render (o : Opt) : String := o.k ++ "=" ++ o.v

/-- The `Optionals` struct of `optionals.rs`. -/
structure Optionals where
  opt_values : List Opt
deriving DecidableEq, Repr

/-- The `Display` impl for `Optionals`: join the rendered flags with `&`. -/
def Optionals.render (os : Optionals) : String :=
  String.intercalate "&" (os.opt_values.map Opt.render)

/-- Modelled from the spec: the Location Set (§2 item 3) is a pure formatter
specified only by contract and `locations.rs` is not among the available
sources, so a location set is embedded by the text its formatter renders. -/
structure Locations where
  rendered : String
deriving DecidableEq, Repr

/-- Modelled from the spec: the response format token; `format.rs` is not
among the available sources and §6 fixes the path to end in `/csv`. -/
inductive Format where
  | CSV
deriving DecidableEq, Repr

/-- Modelled from the spec: `Format::CSV` displays as the `csv` path
segment (§6). -/
def Format.render : Format → String
  | .CSV => "csv"

/-- Modelled from the spec: the `ResponseBody` of `connector_response.rs`
(not among the available sources), per §3 and §6: an ordered header list and
ordered records keyed by their leading timestamp field. -/
structure ResponseBody where
  response_headers : List String
  response_records : List (String × List String)
deriving DecidableEq, Repr

/-- Modelled from the spec: `ResponseBody::new` constructs the empty table. -/
def ResponseBody.new : ResponseBody := ⟨[], []⟩

/-- Modelled from the spec: `ResponseBody::add_header` appends one column
name. -/
def ResponseBody.add_header (rb : ResponseBody) (h : String) : ResponseBody :=
  { rb with response_headers := rb.response_headers ++ [h] }

/-- Modelled from the spec: the external CSV tokenizer collaborator (§4.2
step 1, §6): the body splits into non-empty lines and each line into
`;`-delimited fields. -/
def csvRows (text : String) : List (List String) :=
  ((text.splitOn "\n").filter (fun line => !line.isEmpty)).map
    (fun line => line.splitOn ";")

/-- Modelled from the spec: the row loop of §4.2 steps 2-4: every data row
must have exactly `1 + field_count` fields; the first field keys the record
and the rest are its values; a width mismatch aborts the whole decode with
the offending row index and the observed/expected counts. -/
def populateRows (field_count : Nat) :
    List (List String) → Nat → Except String (List (String × List String))
  | [], _ => Except.ok []
  | row :: rest, idx =>
    if row.length = 1 + field_count then
      match row with
      | key :: values =>
        match populateRows field_count rest (idx + 1) with
        | Except.ok recs => Except.ok ((key, values) :: recs)
        | Except.error e => Except.error e
      | [] => Except.error ("row " ++ toString idx ++ " is empty")
    else
      Except.error ("row " ++ toString idx ++ ": expected " ++
        toString (1 + field_count) ++ " fields, got " ++ toString row.length)

/-- Modelled from the spec: `ResponseBody::populate_records` (§4.2): skip the
provider's header row, then decode every data row all-or-nothing; an empty
body yields zero records and no error. -/
def ResponseBody.populate_records (rb : ResponseBody) (body : String)
    (field_count : Nat) : Except String ResponseBody :=
  match csvRows body with
  | [] => Except.ok rb
  | _header :: dataRows =>
    match populateRows field_count dataRows 0 with
    | Except.ok recs =>
      Except.ok { rb with response_records := rb.response_records ++ recs }
    | Except.error e => Except.error e

/-- The `ConnectorResponse` handed back by `api_client.rs`: the populated
table plus the raw status code string and status line. -/
structure ConnectorResponse where
  response_body : ResponseBody
  http_status_code : String
  http_status_message : String
deriving DecidableEq, Repr

/-- Embedding of the HTTP transport collaborator's outcome: either a
transport-level failure or a response carrying the numeric status, the status
line text (reqwest's `status.to_string()`) and the body text. -/
inductive HttpOutcome where
  | transportError (e : String)
  | response (status : Nat) (statusLine : String) (body : String)
deriving DecidableEq, Repr

/-- A constant HTTP oracle: every request receives the same outcome. -/
def constHttp (o : HttpOutcome) : String → HttpOutcome := fun _ => o

/-- `APIClient::create_response` of `api_client.rs`: build the header list
from the prefix headers followed by the rendered parameters, decode the body
with `field_count = p_values.len()`, wrap a decode failure in `GenericError`,
and otherwise return the populated table with the status code and status
line. -/
def APIClient.create_response (status : Nat) (statusLine : String)
    (body : String) (prefix_headers : List String) (parameters : Parameters) :
    Except ConnectorError ConnectorResponse :=
  let rb := ResponseBody.new
  let rb := prefix_headers.foldl ResponseBody.add_header rb
  let rb := parameters.p_values.foldl (fun acc p => acc.add_header p.render) rb
  match rb.populate_records body parameters.p_values.length with
  | Except.error e => Except.error (ConnectorError.GenericError e)
  | Except.ok rb2 => Except.ok ⟨rb2, toString status, statusLine⟩

/-- The `url_fragment` computation at the top of
`APIClient::query_time_series`: time segment, parameters, locations and
format joined by `/`, with `?options` appended when options are present; the
`?` on `vdt.format()` propagates the formatter's error. -/
def APIClient.url_fragment (vdt : ValidDateTime) (parameters : Parameters)
    (locations : Locations) (optionals : Option Optionals) :
    Except ConnectorError String :=
  match optionals with
  | none =>
    match vdt.format with
    | Except.error e => Except.error e
    | Except.ok t =>
      Except.ok (t ++ "/" ++ parameters.render ++ "/" ++ locations.rendered ++
        "/" ++ Format.CSV.render)
  | some o =>
    match vdt.format with
    | Except.error e => Except.error e
    | Except.ok t =>
      Except.ok (t ++ "/" ++ parameters.render ++ "/" ++ locations.rendered ++
        "/" ++ Format.CSV.render ++ "?" ++ o.render)

/-- `APIClient::query_time_series` of `api_client.rs`, with the HTTP
transport as an oracle argument. The result pairs the returned
`Result` with a trace of the GET request: `none` when formatting failed
before `do_http_get` ran, `some fragment` once the request was issued. A
response with status exactly `StatusCode::OK` (200) goes to
`create_response`; any other status becomes `HttpError` carrying the status
line, the raw body and the status; a transport failure becomes `ApiError`. -/
def APIClient.query_time_series (vdt : ValidDateTime) (parameters : Parameters)
    (locations : Locations) (optionals : Option Optionals)
    (http : String → HttpOutcome) :
    Except ConnectorError ConnectorResponse × Option String :=
  match APIClient.url_fragment vdt parameters locations optionals with
  | Except.error e => (Except.error e, none)
  | Except.ok fragment =>
    match http fragment with
    | HttpOutcome.response status statusLine body =>
      if status = 200 then
        match APIClient.create_response status statusLine body ["validdate"]
            parameters with
        | Except.ok r => (Except.ok r, some fragment)
        | Except.error e => (Except.error e, some fragment)
      else
        (Except.error (ConnectorError.HttpError statusLine body status),
          some fragment)
    | HttpOutcome.transportError e =>
      (Except.error (ConnectorError.ApiError e), some fragment)

/-- Unfolding step for `String.intercalate.go` on a cons cell. -/
theorem intercalate_go_cons (s a b : String) (l : List String) :
    String.intercalate.go a s (b :: l) = String.intercalate.go (a ++ s ++ b) s l := by
  rfl

/-- The accumulator of `String.intercalate.go` factors out on the left. -/
theorem intercalate_go_append (s : String) (l : List String) : ∀ a b : String,
    String.intercalate.go (a ++ b) s l = a ++ String.intercalate.go b s l := by
  induction l with
  | nil => intro a b; rfl
  | cons c cs ih =>
    intro a b
    rw [intercalate_go_cons, intercalate_go_cons]
    have h : a ++ b ++ s ++ c = a ++ (b ++ s ++ c) := by
      simp [String.append_assoc]
    rw [h, ih]

/-- Interleaving a separator over a list with at least two elements peels off
the head and one separator. -/
theorem intercalate_cons_cons (s a b : String) (l : List String) :
    String.intercalate s (a :: b :: l) = (a ++ s) ++ String.intercalate s (b :: l) := by
  show String.intercalate.go a s (b :: l) = _
  rw [intercalate_go_cons]
  have h2 : String.intercalate s (b :: l) = String.intercalate.go b s l := rfl
  rw [h2]
  exact intercalate_go_append s l (a ++ s) b

/-- A rendered date-period token is never the empty string. -/
theorem PeriodDate.render_date_isEmpty (pd : PeriodDate) : pd.render.isEmpty = false := by
  rw [Bool.eq_false_iff]
  intro h
  have h2 := (String.isEmpty_iff _).mp h
  have hl := congrArg String.length h2
  cases pd <;> simp [PeriodDate.render, String.length_append] at hl <;>
    exact absurd hl.1.1 (by decide)

/-- A rendered time-period token is never the empty string. -/
theorem PeriodTime.render_time_isEmpty (ts : PeriodTime) : ts.render.isEmpty = false := by
  rw [Bool.eq_false_iff]
  intro h
  have h2 := (String.isEmpty_iff _).mp h
  have hl := congrArg String.length h2
  cases ts <;> simp [PeriodTime.render, String.length_append] at hl <;>
    exact absurd hl.1.1 (by decide)

/-- The empty string is empty. -/
theorem string_empty_isEmpty : "".isEmpty = true := rfl

/-- The suffix as the spec's words describe it: the rendered date-period
token, then a `:` separator, then the rendered time-step token when both are
present; a single token when one is present; empty when neither is. -/
def specSuffix : Option PeriodDate → Option PeriodTime → String
  | some p, some t => p.render ++ ":" ++ t.render
  | some p, none => p.render
  | none, some t => t.render
  | none, none => ""

/-- Concrete specification with start, end, period and step all present; the
repository's own test builds exactly this shape. -/
def vdtAllThree : ValidDateTime :=
  ⟨VDTOffset.Utc ⟨"2020-01-01T00:00:00+00:00"⟩, some (PeriodDate.Days 1),
    some (VDTOffset.Utc ⟨"2020-01-02T00:00:00+00:00"⟩),
    some (PeriodTime.Hours 1), none⟩

/-- C1: `ValidDateTime::format` fails exactly when `end_date_time`,
`period_date` and `time_step` are all present, and then with the
configuration error; every other combination renders successfully. -/
theorem format_error_exactly_on_period_step_range (vdt : ValidDateTime) :
    ((∃ e, vdt.format = Except.error e) ↔
      (vdt.end_date_time.isSome = true ∧ vdt.period_date.isSome = true ∧
        vdt.time_step.isSome = true))
    ∧ ((vdt.end_date_time.isSome = true ∧ vdt.period_date.isSome = true ∧
        vdt.time_step.isSome = true) →
      vdt.format = Except.error (ConnectorError.LibraryError
        "Cannot use period date and time step simultaneously.")) := by
  obtain ⟨s, pd, e, ts, tl⟩ := vdt
  cases pd <;> cases e <;> cases ts <;>
    simp [ValidDateTime.format, PeriodDate.render_date_isEmpty,
      PeriodTime.render_time_isEmpty, string_empty_isEmpty]

/-- Witness for C1 at the all-three specification. -/
theorem format_error_exactly_on_period_step_range_witness :
    vdtAllThree.format = Except.error (ConnectorError.LibraryError
      "Cannot use period date and time step simultaneously.") :=
  (format_error_exactly_on_period_step_range vdtAllThree).2 (by decide)

/-- C2: with `end_date_time` absent the result is the rendered start
concatenated with the optional suffix (date-period token, `:`, time-step
token when both present; empty when neither). -/
theorem format_no_end_is_start_plus_suffix (s : VDTOffset)
    (pd : Option PeriodDate) (ts : Option PeriodTime)
    (tl : Option (List VDTOffset)) :
    (ValidDateTime.mk s pd none ts tl).format
      = Except.ok (s.render ++ specSuffix pd ts) := by
  cases pd <;> cases ts <;>
    simp [ValidDateTime.format, specSuffix, PeriodDate.render_date_isEmpty,
      PeriodTime.render_time_isEmpty, string_empty_isEmpty, String.append_assoc]

/-- C3: with `end_date_time` present and exactly one qualifier set the result
is `start--end:token`; with neither set it is `start--end` with no trailing
colon. -/
theorem format_range_single_qualifier (s e : VDTOffset)
    (tl : Option (List VDTOffset)) :
    (∀ p : PeriodDate, (ValidDateTime.mk s (some p) (some e) none tl).format
      = Except.ok (s.render ++ "--" ++ e.render ++ ":" ++ p.render))
    ∧ (∀ t : PeriodTime, (ValidDateTime.mk s none (some e) (some t) tl).format
      = Except.ok (s.render ++ "--" ++ e.render ++ ":" ++ t.render))
    ∧ (ValidDateTime.mk s none (some e) none tl).format
      = Except.ok (s.render ++ "--" ++ e.render) := by
  refine ⟨fun p => ?_, fun t => ?_, ?_⟩ <;>
    simp [ValidDateTime.format, PeriodDate.render_date_isEmpty,
      PeriodTime.render_time_isEmpty, string_empty_isEmpty, String.append_assoc]

/-- C9: the formatter never consults `time_list`: two specifications equal in
every other field format identically. -/
theorem format_independent_of_time_list (s : VDTOffset)
    (pd : Option PeriodDate) (e : Option VDTOffset) (ts : Option PeriodTime)
    (tl tl2 : Option (List VDTOffset)) :
    (ValidDateTime.mk s pd e ts tl).format
      = (ValidDateTime.mk s pd e ts tl2).format := by
  rfl

/-- Builder state with start, end, period and step all set, as the
repository's `use_period_date_and_time_step_simultaneously` test builds. -/
def vdtAllThreeBuilder : ValidDateTimeBuilder :=
  { start_date_time := some (VDTOffset.Utc ⟨"2020-01-01T00:00:00+00:00"⟩),
    period_date := some (PeriodDate.Days 1),
    end_date_time := some (VDTOffset.Utc ⟨"2020-01-02T00:00:00+00:00"⟩),
    time_step := some (PeriodTime.Hours 1) }

/-- C5 counterexample: the builder accepts end, period and step together —
construction succeeds, refuting a construction-time failure. -/
theorem builder_accepts_end_period_and_step :
    vdtAllThreeBuilder.build = Except.ok vdtAllThree := rfl

/-- C5 amended: for every choice of fields, constructing with end, period
and step all present succeeds (the generated builder performs no cross-field
validation); the invalid combination is rejected only when `format` runs,
with the configuration error. -/
theorem end_period_step_rejected_at_format_time (s : VDTOffset)
    (p : PeriodDate) (e : VDTOffset) (t : PeriodTime)
    (tl : Option (List VDTOffset)) :
    (ValidDateTimeBuilder.mk (some s) (some p) (some e) (some t) tl).build
      = Except.ok (ValidDateTime.mk s (some p) (some e) (some t) tl) ∧
    (ValidDateTime.mk s (some p) (some e) (some t) tl).format
      = Except.error (ConnectorError.LibraryError
        "Cannot use period date and time step simultaneously.") := by
  refine ⟨rfl, ?_⟩
  simp [ValidDateTime.format, PeriodDate.render_date_isEmpty]

/-- Parameter list supplying the same parameter twice. -/
def dupParams : Parameters := ⟨[⟨"t_2m", some "C"⟩, ⟨"t_2m", some "C"⟩]⟩

/-- C7 counterexample: a caller-supplied duplicate stays in the set and in
the rendered token list — nothing de-duplicates. -/
theorem params_duplicate_not_removed :
    dupParams.render = "t_2m:C,t_2m:C" ∧
    dupParams.p_values.count ⟨"t_2m", some "C"⟩ = 2 := ⟨rfl, rfl⟩

/-- C7 amended: the Parameter Set is an ordered list rendered in
caller-supplied order — the head parameter's token comes first, followed by
a comma and the rendering of the rest — but it is not de-duplicated: a
duplicate contributes its token once per occurrence. -/
theorem params_render_in_caller_order (p : P) (ps : List P) :
    (Parameters.mk (p :: ps)).render
      = p.render ++ (if ps.isEmpty then "" else "," ++ (Parameters.mk ps).render) := by
  cases ps with
  | nil =>
    simp [Parameters.render, String.intercalate]
    rfl
  | cons q qs =>
    show String.intercalate "," (p.render :: q.render :: qs.map P.render) = _
    rw [intercalate_cons_cons]
    simp [Parameters.render, String.append_assoc]

/-- Token per the spec's words: `name:unit` with a unit override, the bare
name without one. -/
def specParamToken (p : P) : String :=
  match p.v with
  | some u => p.k ++ ":" ++ u
  | none => p.k

/-- C8: rendering a parameter list yields the comma-joined spec tokens in
list order, and the spec's two worked examples evaluate as stated. -/
theorem params_render_spec_tokens :
    (∀ ps : List P, (Parameters.mk ps).render
      = String.intercalate "," (ps.map specParamToken))
    ∧ (Parameters.mk [⟨"t_2m", some "C"⟩, ⟨"precip_1h", some "mm"⟩]).render
      = "t_2m:C,precip_1h:mm"
    ∧ (Parameters.mk [⟨"precip_1h", some "mm"⟩, ⟨"wind_speed_10m", none⟩]).render
      = "precip_1h:mm,wind_speed_10m" := by
  refine ⟨fun ps => ?_, by rfl, by rfl⟩
  have h : P.render = specParamToken := by
    funext p
    cases p with
    | mk k v => cases v <;> rfl
  show String.intercalate "," (ps.map P.render) = _
  rw [h]

/-- Specification holding only a start instant. -/
def vdtBare : ValidDateTime :=
  ⟨VDTOffset.Utc ⟨"2020-01-01T00:00:00+00:00"⟩, none, none, none, none⟩

/-- Concrete location set. -/
def locBerlin : Locations := ⟨"52.520551,13.461804"⟩

/-- C10: an empty parameter list renders to the empty string, so the query
path formats successfully with an empty segment between the time segment and
the locations segment. -/
theorem empty_params_render_empty_segment (vdt : ValidDateTime)
    (loc : Locations) (t : String) (hfmt : vdt.format = Except.ok t) :
    (Parameters.mk []).render = "" ∧
    APIClient.url_fragment vdt (Parameters.mk []) loc none
      = Except.ok (t ++ "/" ++ "" ++ "/" ++ loc.rendered ++ "/" ++ "csv") := by
  refine ⟨rfl, ?_⟩
  simp [APIClient.url_fragment, hfmt, Parameters.render, Format.render,
    String.intercalate]

/-- Witness for C10 at a concrete bare specification and location. -/
theorem empty_params_render_empty_segment_witness :
    (Parameters.mk []).render = "" ∧
    APIClient.url_fragment vdtBare (Parameters.mk []) locBerlin none
      = Except.ok ("2020-01-01T00:00:00+00:00" ++ "/" ++ "" ++ "/" ++
          "52.520551,13.461804" ++ "/" ++ "csv") :=
  empty_params_render_empty_segment vdtBare locBerlin
    "2020-01-01T00:00:00+00:00" (by rfl)

/-- C6: when the time specification is invalid, `query_time_series` returns
the formatter's error unchanged and the request trace is empty — no GET was
issued. -/
theorem config_error_before_network (vdt : ValidDateTime)
    (params : Parameters) (loc : Locations) (opts : Option Optionals)
    (http : String → HttpOutcome) (e : ConnectorError)
    (hfmt : vdt.format = Except.error e) :
    APIClient.query_time_series vdt params loc opts http
      = (Except.error e, none) := by
  cases opts <;>
    simp [APIClient.query_time_series, APIClient.url_fragment, hfmt]

/-- Witness for C6 at the all-three specification against a live oracle. -/
theorem config_error_before_network_witness :
    APIClient.query_time_series vdtAllThree (Parameters.mk []) locBerlin none
      (constHttp (HttpOutcome.response 200 "200 OK" "")) =
      (Except.error (ConnectorError.LibraryError
        "Cannot use period date and time step simultaneously."), none) :=
  config_error_before_network vdtAllThree (Parameters.mk []) locBerlin none
    (constHttp (HttpOutcome.response 200 "200 OK" ""))
    (ConnectorError.LibraryError
      "Cannot use period date and time step simultaneously.") (by rfl)

/-- C4 counterexample: a 201 response — a 2xx status — is not decoded; the
exact `StatusCode::OK` match sends it to the Http error branch with the body
kept verbatim. -/
theorem query_201_not_decoded :
    (APIClient.query_time_series vdtBare (Parameters.mk [⟨"t_2m", some "C"⟩])
      locBerlin none (constHttp (HttpOutcome.response 201 "201 Created"
        "validdate;t_2m\n2020-01-01T00:00:00Z;1.0"))).1
    = Except.error (ConnectorError.HttpError "201 Created"
        "validdate;t_2m\n2020-01-01T00:00:00Z;1.0" 201) := by rfl

/-- C4 amended: once the request is issued, a response with status other
than 200 yields the Http error carrying the status and the verbatim body and
never reaches the decoder, while a status-200 response is read and decoded
by `create_response`. -/
theorem query_status_dispatch (vdt : ValidDateTime) (params : Parameters)
    (loc : Locations) (opts : Option Optionals) (status : Nat)
    (stext body t : String) (hfmt : vdt.format = Except.ok t) :
    (status ≠ 200 →
      (APIClient.query_time_series vdt params loc opts
        (constHttp (HttpOutcome.response status stext body))).1
      = Except.error (ConnectorError.HttpError stext body status))
    ∧ (status = 200 →
      (APIClient.query_time_series vdt params loc opts
        (constHttp (HttpOutcome.response status stext body))).1
      = APIClient.create_response status stext body ["validdate"] params) := by
  constructor
  · intro hne
    cases opts <;>
      simp [APIClient.query_time_series, APIClient.url_fragment, hfmt,
        constHttp, hne]
  · intro h200
    subst h200
    cases opts with
    | none =>
      simp only [APIClient.query_time_series, APIClient.url_fragment, hfmt,
        constHttp]
      cases hc : APIClient.create_response 200 stext body ["validdate"] params <;>
        simp [hc]
    | some o =>
      simp only [APIClient.query_time_series, APIClient.url_fragment, hfmt,
        constHttp]
      cases hc : APIClient.create_response 200 stext body ["validdate"] params <;>
        simp [hc]

/-- Witness for C4 amended at a 404 response. -/
theorem query_status_dispatch_witness :
    (APIClient.query_time_series vdtBare (Parameters.mk [⟨"t_2m", some "C"⟩])
      locBerlin none (constHttp (HttpOutcome.response 404 "404 Not Found"
        "no data"))).1
    = Except.error (ConnectorError.HttpError "404 Not Found" "no data" 404) :=
  (query_status_dispatch vdtBare (Parameters.mk [⟨"t_2m", some "C"⟩])
    locBerlin none 404 "404 Not Found" "no data"
    "2020-01-01T00:00:00+00:00" (by rfl)).1 (by decide)
